import Mathlib

/-!
Shallow embedding of the projection engine of
`executive-financial-dashboard` (`src/app.py`).

All money and unit quantities are modelled as exact rationals; the
horizon (`months`) is a natural number.  The embedded definitions follow
the script line by line: the sidebar inputs become the fields of
`Params`, the units loop becomes `unitsFrom`, the dataframe column
assignments become the fields of `mkRecord`, and the derived metrics
(`avg_net_profit`, `contribution_per_unit`, `health_score`,
`break_even`, the reported averages) are translated from the
corresponding lines of the script.
-/

namespace Dashboard

/-- Business parameters, mirroring the sidebar inputs of `src/app.py`
lines 46-54: `price`, `cost`, `fixed_cost`, `start_units` come from
number inputs, `months`, `growth`, `price_change` from sliders. -/
structure Params where
  price : ℚ
  cost : ℚ
  fixed_cost : ℚ
  months : Nat
  start_units : ℚ
  growth : ℚ
  price_change : ℚ
deriving DecidableEq

/-- Line 55 of the script: `adj_price = price * (1 + price_change / 100)`. -/
def adj_price (p : Params) : ℚ :=
  p.price * (1 + p.price_change / 100)

/-- The units loop of lines 68-72: starting from the running value
`current`, each iteration appends `max 0 current` and then multiplies
the (unclamped) running value by the growth factor. -/
def unitsFrom (current factor : ℚ) : Nat → List ℚ
  | 0 => []
  | n + 1 => max 0 current :: unitsFrom (current * factor) factor n

/-- The `units` list of the script: the loop run for `months`
iterations starting at `start_units` with factor `1 + growth / 100`. -/
def units (p : Params) : List ℚ :=
  unitsFrom p.start_units (1 + p.growth / 100) p.months

/-- One row of the dataframe built in lines 74-85 of the script. -/
structure PeriodRecord where
  periodLabel : String
  unitsSold : ℚ
  revenue : ℚ
  cogs : ℚ
  grossProfit : ℚ
  netProfit : ℚ
  grossMarginPercent : ℚ
  netMarginPercent : ℚ
deriving DecidableEq

/-- A dataframe row for one month, translated from the column
assignments of lines 74-85:
`Revenue = Units Sold * adj_price`, `COGS = Units Sold * cost`,
`Contribution = Revenue - COGS`, `Net Profit = Contribution - fixed_cost`,
and the two margin columns guarded by `np.where(Revenue > 0, ..., 0)`. -/
def mkRecord (label : String) (u a c f : ℚ) : PeriodRecord where
  periodLabel := label
  unitsSold := u
  revenue := u * a
  cogs := u * c
  grossProfit := u * a - u * c
  netProfit := u * a - u * c - f
  grossMarginPercent := if 0 < u * a then (u * a - u * c) / (u * a) * 100 else 0
  netMarginPercent := if 0 < u * a then (u * a - u * c - f) / (u * a) * 100 else 0

/-- A placeholder row, used only as the default of `List.getD`. -/
def emptyRecord : PeriodRecord :=
  { periodLabel := "", unitsSold := 0, revenue := 0, cogs := 0,
    grossProfit := 0, netProfit := 0, grossMarginPercent := 0,
    netMarginPercent := 0 }

/-- Dataframe construction over a units list: row `i` (counting from
`idx`) is labelled `Month (idx+i+1)` as in line 75 of the script. -/
def projectFrom (a c f : ℚ) (idx : Nat) : List ℚ → List PeriodRecord
  | [] => []
  | u :: rest =>
      mkRecord ("Month " ++ toString (idx + 1)) u a c f ::
        projectFrom a c f (idx + 1) rest

/-- The full projection: the dataframe of lines 74-85 as a list of
`PeriodRecord`s in month order. -/
def project (p : Params) : List PeriodRecord :=
  projectFrom (adj_price p) p.cost p.fixed_cost 0 (units p)

/-- Mean of a list of rationals, the model of pandas `.mean()` on a
dataframe column. -/
def listMean (l : List ℚ) : ℚ :=
  l.sum / l.length

/-- Line 90: `avg_net_profit = df["Net Profit"].mean()`. -/
def avg_net_profit (p : Params) : ℚ :=
  listMean ((project p).map PeriodRecord.netProfit)

/-- Line 91: `contribution_per_unit = adj_price - cost`. -/
def contribution_per_unit (p : Params) : ℚ :=
  adj_price p - p.cost

/-- Line 122: `actual_avg_revenue = df["Revenue"].mean()`. -/
def actual_avg_revenue (p : Params) : ℚ :=
  listMean ((project p).map PeriodRecord.revenue)

/-- Line 123: `actual_net_margin = df["Net Margin %"].mean()`. -/
def actual_net_margin (p : Params) : ℚ :=
  listMean ((project p).map PeriodRecord.netMarginPercent)

/-- Lines 139-140: the reported average gross margin
`df["Gross Margin %"].mean()`. -/
def avg_gross_margin (p : Params) : ℚ :=
  listMean ((project p).map PeriodRecord.grossMarginPercent)

/-- Lines 93-97: the health score, four conditional bonuses added to 0. -/
def health_score (p : Params) : Nat :=
  (if 0 < contribution_per_unit p then 30 else 0) +
    (if 0 < avg_net_profit p then 30 else 0) +
    (if 0 < p.growth then 20 else 0) +
    (if p.fixed_cost < actual_avg_revenue p then 20 else 0)

/-- Lines 114-115: the break-even metric shows
`fixed_cost / contribution_per_unit` when `contribution_per_unit > 0`
and the sentinel (a cross mark) otherwise; `none` models the sentinel. -/
def break_even (p : Params) : Option ℚ :=
  if 0 < contribution_per_unit p then
    some (p.fixed_cost / contribution_per_unit p)
  else
    none

/-- The ratio-of-sums net margin `(sum netProfit / sum revenue) * 100`,
which the spec contrasts with the reported mean-of-ratios value.  The
script never computes this quantity; it is defined here only to be
compared with `actual_net_margin`. -/
def netMarginOfTotals (p : Params) : ℚ :=
  ((project p).map PeriodRecord.netProfit).sum /
      ((project p).map PeriodRecord.revenue).sum * 100

/-- Indicator of a decidable proposition, for stating the health-score
formula in Iverson-bracket form. -/
def ind (c : Prop) [Decidable c] : Nat :=
  if c then 1 else 0

/-- The units recurrence exactly as the specification words it:
`unitsSold[0] = max(0, startingUnits)` and
`unitsSold[i] = max(0, unitsSold[i-1] * factor)` for `i > 0` — the
clamp is applied to the carried value, unlike the script, which clamps
only the appended copy. -/
def specUnits (start factor : ℚ) : Nat → ℚ
  | 0 => max 0 start
  | i + 1 => max 0 (specUnits start factor i * factor)

/-- The concrete scenario of the spec: default sidebar values with zero
growth and no price scenario. -/
def exBase : Params :=
  { price := 50, cost := 20, fixed_cost := 20000, months := 6,
    start_units := 70, growth := 0, price_change := 0 }

/-- A two-period setting with unequal revenues, for the average-margin
aggregation claim. -/
def exTwoPeriod : Params :=
  { price := 10, cost := 0, fixed_cost := 5, months := 2,
    start_units := 1, growth := 100, price_change := 0 }

/-- A setting with `price = cost` but a positive price scenario, so the
adjusted price exceeds the unit cost. -/
def exPriceBump : Params :=
  { price := 20, cost := 20, fixed_cost := 20000, months := 6,
    start_units := 70, growth := 0, price_change := 10 }

lemma length_unitsFrom (c f : ℚ) (n : Nat) : (unitsFrom c f n).length = n := by
  induction n generalizing c with
  | zero => simp [unitsFrom]
  | succ n ih => simp [unitsFrom, ih]

lemma getD_unitsFrom (c f : ℚ) (n i : Nat) (h : i < n) :
    (unitsFrom c f n).getD i 0 = max 0 (c * f ^ i) := by
  induction n generalizing c i with
  | zero => omega
  | succ n ih =>
    cases i with
    | zero => simp [unitsFrom]
    | succ j =>
      rw [unitsFrom, List.getD_cons_succ, ih (c * f) j (by omega)]
      congr 1
      ring

lemma length_units (p : Params) : (units p).length = p.months :=
  length_unitsFrom _ _ _

lemma getD_units (p : Params) (i : Nat) (h : i < p.months) :
    (units p).getD i 0 = max 0 (p.start_units * (1 + p.growth / 100) ^ i) :=
  getD_unitsFrom _ _ _ _ h

lemma length_projectFrom (a c f : ℚ) (idx : Nat) (l : List ℚ) :
    (projectFrom a c f idx l).length = l.length := by
  induction l generalizing idx with
  | nil => simp [projectFrom]
  | cons u rest ih => simp [projectFrom, ih]

lemma getD_projectFrom (a c f : ℚ) (idx : Nat) (l : List ℚ) (i : Nat)
    (h : i < l.length) :
    (projectFrom a c f idx l).getD i emptyRecord =
      mkRecord ("Month " ++ toString (idx + i + 1)) (l.getD i 0) a c f := by
  induction l generalizing i idx with
  | nil => simp at h
  | cons u rest ih =>
    cases i with
    | zero => simp [projectFrom]
    | succ j =>
      have harith : idx + 1 + j + 1 = idx + (j + 1) + 1 := by omega
      rw [projectFrom, List.getD_cons_succ, List.getD_cons_succ,
        ih (idx + 1) j (by simpa using h), harith]

lemma length_project (p : Params) : (project p).length = p.months := by
  rw [project, length_projectFrom, length_units]

lemma getD_project (p : Params) (i : Nat) (h : i < p.months) :
    (project p).getD i emptyRecord =
      mkRecord ("Month " ++ toString (i + 1)) ((units p).getD i 0)
        (adj_price p) p.cost p.fixed_cost := by
  rw [project, getD_projectFrom _ _ _ _ _ _ (by rw [length_units]; exact h)]
  norm_num

lemma specUnits_eq (start f : ℚ) (hs : 0 ≤ start) (hf : 0 ≤ f) (i : Nat) :
    specUnits start f i = start * f ^ i := by
  induction i with
  | zero => simp [specUnits, max_eq_right hs]
  | succ j ih =>
    rw [specUnits, ih, pow_succ, ← mul_assoc]
    exact max_eq_right (by positivity)

/-- Claim C1 counterexample: the break-even metric is computed from the
scenario-adjusted price, not the raw selling price.  With
`price = cost = 20` and a `+10%` price scenario (all inputs inside their
widget ranges), `sellingPrice ≤ unitCost` holds and yet the script
reports the number `10000`, not the sentinel. -/
theorem breakEven_sellingPrice_le_cost_fails :
    exPriceBump.price ≤ exPriceBump.cost ∧ 0 < exPriceBump.price ∧
      0 ≤ exPriceBump.cost ∧ -30 ≤ exPriceBump.price_change ∧
      exPriceBump.price_change ≤ 30 ∧ break_even exPriceBump = some 10000 := by
  norm_num [exPriceBump, break_even, contribution_per_unit, adj_price]

/-- Claim C1 (amended): for every parameter set with non-negative fixed
cost, `break_even` returns the sentinel whenever the scenario-adjusted
price `adj_price` is at most `unitCost` (including equality), and a
finite non-negative number otherwise. -/
theorem breakEven_sentinel_adjustedPrice (p : Params) (hf : 0 ≤ p.fixed_cost) :
    (adj_price p ≤ p.cost → break_even p = none) ∧
      (p.cost < adj_price p →
        break_even p = some (p.fixed_cost / (adj_price p - p.cost)) ∧
          0 ≤ p.fixed_cost / (adj_price p - p.cost)) := by
  simp only [break_even, contribution_per_unit]
  constructor
  · intro hle
    rw [if_neg (by simp only [not_lt]; linarith)]
  · intro hlt
    rw [if_pos (by linarith)]
    exact ⟨rfl, div_nonneg hf (by linarith)⟩

/-- Witness for the amended claim C1 at the base scenario, where the
adjusted price (50) exceeds the unit cost (20). -/
theorem breakEven_sentinel_adjustedPrice_witness :
    break_even exBase =
        some (exBase.fixed_cost / (adj_price exBase - exBase.cost)) ∧
      0 ≤ exBase.fixed_cost / (adj_price exBase - exBase.cost) :=
  (breakEven_sentinel_adjustedPrice exBase (by norm_num [exBase])).2
    (by norm_num [exBase, adj_price])

/-- Claim C2: for every parameter set with non-negative starting units
and growth rate at least −100% (which covers the whole widget range
−30..100), the units list of the script satisfies the recurrence
`unitsSold[0] = max(0, startingUnits)` and
`unitsSold[i] = max(0, unitsSold[i-1] * (1 + growth/100))` for `i > 0`. -/
theorem units_recurrence (p : Params) (i : Nat) (h0 : 0 ≤ p.start_units)
    (hg : -100 ≤ p.growth) (hi : i < p.months) :
    (units p).getD 0 0 = max 0 p.start_units ∧
      (0 < i →
        (units p).getD i 0 =
          max 0 ((units p).getD (i - 1) 0 * (1 + p.growth / 100))) := by
  have hf : (0:ℚ) ≤ 1 + p.growth / 100 := by linarith
  constructor
  · rw [getD_units p 0 (by omega)]
    simp
  · intro hipos
    obtain ⟨j, rfl⟩ : ∃ j, i = j + 1 := ⟨i - 1, by omega⟩
    rw [getD_units p (j + 1) hi]
    simp only [Nat.add_sub_cancel]
    rw [getD_units p j (by omega),
      max_eq_right (show 0 ≤ p.start_units * (1 + p.growth / 100) ^ j by
        positivity)]
    congr 1
    rw [pow_succ]
    ring

/-- Witness for claim C2: in the base scenario the second month's units
equal the clamped product of the first month's units and the growth
factor. -/
theorem units_recurrence_witness :
    (units exBase).getD 1 0 =
      max 0 ((units exBase).getD 0 0 * (1 + exBase.growth / 100)) :=
  (units_recurrence exBase 1 (by norm_num [exBase]) (by norm_num [exBase])
    (by norm_num [exBase])).2 (by norm_num)

/-- Claim C5: `contribution_per_unit` is the adjusted price minus the
unit cost; `break_even` is the sentinel exactly when it is non-positive
and otherwise equals `fixed_cost / contribution_per_unit`, a
non-negative number (assuming a non-negative fixed cost, as the widget
guarantees). -/
theorem break_even_contract (p : Params) (hf : 0 ≤ p.fixed_cost) :
    contribution_per_unit p = adj_price p - p.cost ∧
      (contribution_per_unit p ≤ 0 → break_even p = none) ∧
      (0 < contribution_per_unit p →
        break_even p = some (p.fixed_cost / contribution_per_unit p) ∧
          0 ≤ p.fixed_cost / contribution_per_unit p) := by
  refine ⟨rfl, ?_, ?_⟩
  · intro hle
    rw [break_even, if_neg (not_lt.mpr hle)]
  · intro hpos
    rw [break_even, if_pos hpos]
    exact ⟨rfl, div_nonneg hf hpos.le⟩

/-- Witness for claim C5 at the price-bump scenario, whose contribution
per unit is 2. -/
theorem break_even_contract_witness :
    break_even exPriceBump =
        some (exPriceBump.fixed_cost / contribution_per_unit exPriceBump) ∧
      0 ≤ exPriceBump.fixed_cost / contribution_per_unit exPriceBump :=
  (break_even_contract exPriceBump (by norm_num [exPriceBump])).2.2
    (by norm_num [contribution_per_unit, adj_price, exPriceBump])

/-- Claim C10: for non-negative starting units and growth at least −100%
(covering the whole widget range), the units list equals the closed
geometric form `startingUnits * (1 + growth/100)^i`, the clamp never
changes a value, and the script's loop (clamp on the appended copy)
agrees with the spec's recurrence (clamp on the carried value). -/
theorem units_closed_form (p : Params) (i : Nat) (h0 : 0 ≤ p.start_units)
    (hg : -100 ≤ p.growth) (hi : i < p.months) :
    (units p).getD i 0 = p.start_units * (1 + p.growth / 100) ^ i ∧
      max 0 (p.start_units * (1 + p.growth / 100) ^ i) =
        p.start_units * (1 + p.growth / 100) ^ i ∧
      (units p).getD i 0 = specUnits p.start_units (1 + p.growth / 100) i := by
  have hf : (0:ℚ) ≤ 1 + p.growth / 100 := by linarith
  have hmax : max 0 (p.start_units * (1 + p.growth / 100) ^ i) =
      p.start_units * (1 + p.growth / 100) ^ i :=
    max_eq_right (by positivity)
  have hget : (units p).getD i 0 = p.start_units * (1 + p.growth / 100) ^ i := by
    rw [getD_units p i hi, hmax]
  exact ⟨hget, hmax, by rw [hget, specUnits_eq _ _ h0 hf]⟩

/-- Witness for claim C10 at the base scenario, month index 2. -/
theorem units_closed_form_witness :
    (units exBase).getD 2 0 =
        exBase.start_units * (1 + exBase.growth / 100) ^ 2 ∧
      max 0 (exBase.start_units * (1 + exBase.growth / 100) ^ 2) =
        exBase.start_units * (1 + exBase.growth / 100) ^ 2 ∧
      (units exBase).getD 2 0 =
        specUnits exBase.start_units (1 + exBase.growth / 100) 2 :=
  units_closed_form exBase 2 (by norm_num [exBase]) (by norm_num [exBase])
    (by norm_num [exBase])

/-- Claim C3: every row of the projection satisfies
`revenue = unitsSold * adj_price`, `cogs = unitsSold * cost`,
`grossProfit = revenue - cogs`, `netProfit = grossProfit - fixed_cost`,
with the period-invariant adjusted price
`adj_price = price * (1 + price_change / 100)`. -/
theorem record_field_formulas (p : Params) (i : Nat) (hi : i < p.months) :
    ((project p).getD i emptyRecord).revenue =
        ((project p).getD i emptyRecord).unitsSold * adj_price p ∧
      ((project p).getD i emptyRecord).cogs =
        ((project p).getD i emptyRecord).unitsSold * p.cost ∧
      ((project p).getD i emptyRecord).grossProfit =
        ((project p).getD i emptyRecord).revenue -
          ((project p).getD i emptyRecord).cogs ∧
      ((project p).getD i emptyRecord).netProfit =
        ((project p).getD i emptyRecord).grossProfit - p.fixed_cost ∧
      adj_price p = p.price * (1 + p.price_change / 100) := by
  rw [getD_project p i hi]
  exact ⟨rfl, rfl, rfl, rfl, rfl⟩

/-- Witness for claim C3 at the base scenario, month index 0. -/
theorem record_field_formulas_witness :
    ((project exBase).getD 0 emptyRecord).revenue =
        ((project exBase).getD 0 emptyRecord).unitsSold * adj_price exBase ∧
      ((project exBase).getD 0 emptyRecord).cogs =
        ((project exBase).getD 0 emptyRecord).unitsSold * exBase.cost ∧
      ((project exBase).getD 0 emptyRecord).grossProfit =
        ((project exBase).getD 0 emptyRecord).revenue -
          ((project exBase).getD 0 emptyRecord).cogs ∧
      ((project exBase).getD 0 emptyRecord).netProfit =
        ((project exBase).getD 0 emptyRecord).grossProfit -
          exBase.fixed_cost ∧
      adj_price exBase = exBase.price * (1 + exBase.price_change / 100) :=
  record_field_formulas exBase 0 (by norm_num [exBase])

/-- Claim C4: the reported average net margin and average gross margin
are the arithmetic mean of the per-period percentages (sum of the column
divided by the number of months), and in the concrete two-period setting
with unequal revenues this mean of ratios (125/2) differs from the
ratio-of-sums margin (200/3); the script reports the mean of ratios. -/
theorem average_margin_aggregation (p : Params) (h : 0 < p.months) :
    actual_net_margin p =
        ((project p).map PeriodRecord.netMarginPercent).sum / (p.months : ℚ) ∧
      avg_gross_margin p =
        ((project p).map PeriodRecord.grossMarginPercent).sum /
          (p.months : ℚ) ∧
      exTwoPeriod.months = 2 ∧
      actual_net_margin exTwoPeriod = 125 / 2 ∧
      netMarginOfTotals exTwoPeriod = 200 / 3 ∧
      actual_net_margin exTwoPeriod ≠ netMarginOfTotals exTwoPeriod := by
  have hnet : actual_net_margin exTwoPeriod = 125 / 2 := by
    norm_num [actual_net_margin, listMean, project, units, exTwoPeriod,
      unitsFrom, projectFrom, mkRecord, adj_price]
  have htot : netMarginOfTotals exTwoPeriod = 200 / 3 := by
    norm_num [netMarginOfTotals, project, units, exTwoPeriod, unitsFrom,
      projectFrom, mkRecord, adj_price]
  refine ⟨?_, ?_, rfl, hnet, htot, ?_⟩
  · rw [actual_net_margin, listMean, List.length_map, length_project]
  · rw [avg_gross_margin, listMean, List.length_map, length_project]
  · rw [hnet, htot]
    norm_num

/-- Witness for claim C4 at the two-period setting. -/
theorem average_margin_aggregation_witness :
    actual_net_margin exTwoPeriod =
      ((project exTwoPeriod).map PeriodRecord.netMarginPercent).sum /
        (exTwoPeriod.months : ℚ) :=
  (average_margin_aggregation exTwoPeriod (by norm_num [exTwoPeriod])).1

/-- Claim C6: the health score equals
`30*[contribution > 0] + 30*[mean net profit > 0] + 20*[growth > 0] +
20*[fixed cost < mean revenue]` and is at most 100 (it is a natural
number, hence at least 0). -/
theorem health_score_formula (p : Params) (h : 0 < p.months) :
    health_score p =
        30 * ind (0 < contribution_per_unit p) +
          30 * ind (0 < avg_net_profit p) + 20 * ind (0 < p.growth) +
          20 * ind (p.fixed_cost < actual_avg_revenue p) ∧
      health_score p ≤ 100 := by
  constructor <;>
    · simp only [health_score, ind]
      split_ifs <;> norm_num

/-- Witness for claim C6 at the base scenario. -/
theorem health_score_formula_witness :
    health_score exBase =
        30 * ind (0 < contribution_per_unit exBase) +
          30 * ind (0 < avg_net_profit exBase) +
          20 * ind (0 < exBase.growth) +
          20 * ind (exBase.fixed_cost < actual_avg_revenue exBase) ∧
      health_score exBase ≤ 100 :=
  health_score_formula exBase (by norm_num [exBase])

/-- Claim C7: in every row, a zero revenue forces both margin
percentages to 0, and a positive revenue makes them the usual
`grossProfit/revenue*100` and `netProfit/revenue*100`. -/
theorem margin_zero_guard (p : Params) (i : Nat) (hi : i < p.months) :
    (((project p).getD i emptyRecord).revenue = 0 →
        ((project p).getD i emptyRecord).grossMarginPercent = 0 ∧
          ((project p).getD i emptyRecord).netMarginPercent = 0) ∧
      (0 < ((project p).getD i emptyRecord).revenue →
        ((project p).getD i emptyRecord).grossMarginPercent =
            ((project p).getD i emptyRecord).grossProfit /
                ((project p).getD i emptyRecord).revenue * 100 ∧
          ((project p).getD i emptyRecord).netMarginPercent =
            ((project p).getD i emptyRecord).netProfit /
                ((project p).getD i emptyRecord).revenue * 100) := by
  rw [getD_project p i hi]
  simp only [mkRecord]
  constructor
  · intro h0
    rw [if_neg (not_lt.mpr h0.le), if_neg (not_lt.mpr h0.le)]
    exact ⟨rfl, rfl⟩
  · intro hpos
    rw [if_pos hpos, if_pos hpos]
    exact ⟨rfl, rfl⟩

/-- Witness for claim C7: the base scenario's first month has positive
revenue and its margins are the usual ratios. -/
theorem margin_zero_guard_witness :
    ((project exBase).getD 0 emptyRecord).grossMarginPercent =
        ((project exBase).getD 0 emptyRecord).grossProfit /
            ((project exBase).getD 0 emptyRecord).revenue * 100 ∧
      ((project exBase).getD 0 emptyRecord).netMarginPercent =
        ((project exBase).getD 0 emptyRecord).netProfit /
            ((project exBase).getD 0 emptyRecord).revenue * 100 :=
  (margin_zero_guard exBase 0 (by norm_num [exBase])).2
    (by norm_num [project, units, exBase, unitsFrom, projectFrom, mkRecord,
      adj_price])

/-- Claim C8: the projection has exactly `months` rows, row `i` is
labelled `Month (i+1)`, and every row's units are non-negative (for any
growth rate, with no precondition). -/
theorem project_shape (p : Params) (i : Nat) (hi : i < p.months) :
    (project p).length = p.months ∧
      ((project p).getD i emptyRecord).periodLabel =
        "Month " ++ toString (i + 1) ∧
      0 ≤ ((project p).getD i emptyRecord).unitsSold := by
  refine ⟨length_project p, ?_, ?_⟩
  · rw [getD_project p i hi]
    rfl
  · rw [getD_project p i hi]
    simp only [mkRecord]
    rw [getD_units p i hi]
    exact le_max_left _ _

/-- Witness for claim C8 at the base scenario, month index 0. -/
theorem project_shape_witness :
    (project exBase).length = exBase.months ∧
      ((project exBase).getD 0 emptyRecord).periodLabel =
        "Month " ++ toString (0 + 1) ∧
      0 ≤ ((project exBase).getD 0 emptyRecord).unitsSold :=
  project_shape exBase 0 (by norm_num [exBase])

/-- Claim C9: in the base scenario (price 50, cost 20, fixed cost 20000,
6 months, 70 starting units, zero growth, zero price scenario) every
month has units 70, revenue 3500, COGS 1400, gross profit 2100, net
profit −17900, gross margin 60%, net margin −3580/7 %; the contribution
per unit is 30 and the break-even is 2000/3 units per month. -/
theorem base_scenario_values (i : Nat) (hi : i < 6) :
    (project exBase).length = 6 ∧
      ((project exBase).getD i emptyRecord).unitsSold = 70 ∧
      ((project exBase).getD i emptyRecord).revenue = 3500 ∧
      ((project exBase).getD i emptyRecord).cogs = 1400 ∧
      ((project exBase).getD i emptyRecord).grossProfit = 2100 ∧
      ((project exBase).getD i emptyRecord).netProfit = -17900 ∧
      ((project exBase).getD i emptyRecord).grossMarginPercent = 60 ∧
      ((project exBase).getD i emptyRecord).netMarginPercent = -3580 / 7 ∧
      contribution_per_unit exBase = 30 ∧
      break_even exBase = some (2000 / 3) := by
  have hm : i < exBase.months := hi
  have hu : (units exBase).getD i 0 = 70 := by
    rw [getD_units exBase i hm]
    norm_num [exBase]
  rw [length_project, getD_project exBase i hm, hu]
  norm_num [mkRecord, adj_price, contribution_per_unit, break_even, exBase]

/-- Witness for claim C9 at month index 0. -/
theorem base_scenario_values_witness :
    (project exBase).length = 6 ∧
      ((project exBase).getD 0 emptyRecord).unitsSold = 70 ∧
      ((project exBase).getD 0 emptyRecord).revenue = 3500 ∧
      ((project exBase).getD 0 emptyRecord).cogs = 1400 ∧
      ((project exBase).getD 0 emptyRecord).grossProfit = 2100 ∧
      ((project exBase).getD 0 emptyRecord).netProfit = -17900 ∧
      ((project exBase).getD 0 emptyRecord).grossMarginPercent = 60 ∧
      ((project exBase).getD 0 emptyRecord).netMarginPercent = -3580 / 7 ∧
      contribution_per_unit exBase = 30 ∧
      break_even exBase = some (2000 / 3) :=
  base_scenario_values 0 (by norm_num)

end Dashboard
